import Mathlib

/-!
Verification of the backup utility against its specification.

This file shallowly embeds the core of the repository (src/backup.rs,
src/main.rs, src/writer.rs) and proves or refutes the specification's
claims about it.

Embedding conventions:
* a path is embedded as its list of normal components (`FPath`);
* the filesystem is a finite map from paths to entries carried as an
  association list, together with the set of paths whose unresolved
  (lstat) kind is a symbolic link.  `FS.stat` models `std::fs::metadata`,
  which follows links, so it never reports a symlink kind; `FS.isSymlink`
  models `std::path::Path::is_symlink`, which does not follow links;
* `Entry.other` stands for filesystem kinds that are neither regular
  files nor directories (devices, sockets, ...);
* fallible filesystem primitives that mutate nothing when they fail
  (`std::fs::File::create`, `std::fs::copy`) return `Option FS`;
  `std::fs::create_dir_all` can leave behind the ancestors it already
  created when it fails, so it returns the possibly mutated state plus a
  success flag;
* the wall-clock instant `chrono::Local::now()` is passed in as an
  explicit `Timestamp` argument;
* process termination through `writer::usage` is reflected in the
  `ProcState` result (exit code and whether usage text goes to stdout).
-/

set_option autoImplicit false

abbrev FPath := List String

inductive Entry where
  | file (content : List Nat)
  | dir
  | other
deriving DecidableEq

def Entry.is_file : Entry → Bool
  | .file _ => true
  | _ => false

def Entry.is_dir : Entry → Bool
  | .dir => true
  | _ => false

structure FS where
  entries : List (FPath × Entry)
  symlinks : List FPath
deriving DecidableEq

def lookupEntry : List (FPath × Entry) → FPath → Option Entry
  | [], _ => none
  | pe :: rest, p => if pe.1 = p then some pe.2 else lookupEntry rest p

/-- Resolved metadata of a path: models `std::fs::metadata`. -/
def FS.stat (fs : FS) (p : FPath) : Option Entry :=
  lookupEntry fs.entries p

/-- Unresolved symlink test: models `std::path::Path::is_symlink`. -/
def FS.isSymlink (fs : FS) (p : FPath) : Bool :=
  decide (p ∈ fs.symlinks)

/-- Create or overwrite the entry at `p`. -/
def FS.set (fs : FS) (p : FPath) (e : Entry) : FS :=
  { fs with entries := (p, e) :: fs.entries.filter (fun x => !decide (x.1 = p)) }

/-- Models `std::fs::create_dir_all` walking the components of the path:
an existing directory component is kept, a missing one is created, and a
component that exists with any other kind aborts the walk, keeping the
directories created so far (`false` = failure). -/
def createDirAllAux (fs : FS) (done : FPath) : List String → FS × Bool
  | [] => (fs, true)
  | c :: rest =>
    match fs.stat (done ++ [c]) with
    | some .dir => createDirAllAux fs (done ++ [c]) rest
    | some _ => (fs, false)
    | none => createDirAllAux (fs.set (done ++ [c]) .dir) (done ++ [c]) rest

def createDirAll (fs : FS) (p : FPath) : FS × Bool :=
  createDirAllAux fs [] p

/-- Models `std::fs::File::create`: truncates an existing regular file,
creates a fresh empty file when the parent directory exists, and fails
(mutating nothing) on a directory or other kind. -/
def fileCreate (fs : FS) (p : FPath) : Option FS :=
  match fs.stat p with
  | some (.file _) => some (fs.set p (.file []))
  | some _ => none
  | none =>
    if p ≠ [] ∧ (p.dropLast = [] ∨ fs.stat p.dropLast = some .dir) then
      some (fs.set p (.file []))
    else none

/-- Models `std::fs::copy src dst`: requires `src` to be a regular file
and the parent of `dst` to be a directory (or the working directory),
creates or overwrites a regular file at `dst`, and fails with no
mutation otherwise. -/
def fsCopy (fs : FS) (src dst : FPath) : Option FS :=
  match fs.stat src with
  | some (.file c) =>
    if dst ≠ [] ∧ (dst.dropLast = [] ∨ fs.stat dst.dropLast = some .dir) then
      match fs.stat dst with
      | some (.file _) => some (fs.set dst (.file c))
      | some _ => none
      | none => some (fs.set dst (.file c))
    else none
  | _ => none

/-- Models `std::path::Path::file_name` on a component list: the last
component, unless the path is empty or ends in a parent-directory
component. -/
def fileName (p : FPath) : Option String :=
  match p.getLast? with
  | none => none
  | some c => if c = ".." then none else some c

structure Timestamp where
  year : Nat
  month : Nat
  day : Nat
  hour : Nat
  minute : Nat
  second : Nat
deriving DecidableEq

def pad2 (n : Nat) : String :=
  if n < 10 then "0" ++ toString n else toString n

def pad4 (n : Nat) : String :=
  if n < 10 then "000" ++ toString n
  else if n < 100 then "00" ++ toString n
  else if n < 1000 then "0" ++ toString n
  else toString n

/-- Models `chrono` formatting with the format string
`%Y-%m-%d_%H-%M-%S` used by every copy routine. -/
def formatTimestamp (t : Timestamp) : String :=
  pad4 t.year ++ "-" ++ pad2 t.month ++ "-" ++ pad2 t.day ++ "_" ++
    pad2 t.hour ++ "-" ++ pad2 t.minute ++ "-" ++ pad2 t.second

/-- Models `format!("{}.{}.backup", source_filename, timestamp)`. -/
def backupFilename (source_filename : String) (now : Timestamp) : String :=
  source_filename ++ "." ++ formatTimestamp now ++ ".backup"

inductive BackupType where
  | FileDirectory
  | FileFile
  | DirectoryDirectory
  | DirectoryFile
deriving DecidableEq

/-- Embeds `determine_backup_type` from src/backup.rs: fetch source
metadata, then target metadata, then classify by the file/directory
kinds; errors are returned as data (`Except.error` with the source's
message strings), and the function reads but never writes the
filesystem, as its type shows. -/
def determine_backup_type (fs : FS) (source target : FPath) : Except String BackupType :=
  match fs.stat source with
  | none => .error "Source file or directory does not exist"
  | some source_metadata =>
    match fs.stat target with
    | none => .error "Target file or directory does not exist"
    | some target_metadata =>
      if source_metadata.is_file && target_metadata.is_dir then
        .ok .FileDirectory
      else if source_metadata.is_file && target_metadata.is_file then
        .ok .FileFile
      else if source_metadata.is_dir && target_metadata.is_dir then
        .ok .DirectoryDirectory
      else if source_metadata.is_dir && target_metadata.is_file then
        .ok .DirectoryFile
      else
        .error "Unknown error"

/-- Embeds `backup_file_directory` from src/backup.rs.  Every failing
step returns early, surfacing no error; the function's result is just
the filesystem state at the point of the early return. -/
def backup_file_directory (fs : FS) (now : Timestamp) (source target : FPath) : FS :=
  match fs.stat source, fs.stat target with
  | some _, some target_metadata =>
    match (if target_metadata.is_dir then (fs, true) else createDirAll fs target) with
    | (fs1, false) => fs1
    | (fs1, true) =>
      match fileName source with
      | none => fs1
      | some source_filename =>
        let backup_path := target ++ [backupFilename source_filename now]
        match fsCopy fs1 source backup_path with
        | none => fs1
        | some fs2 => fs2
  | _, _ => fs

/-- Embeds `backup_file_file` from src/backup.rs.  Note that the backup
filename is joined onto the target path itself, a file. -/
def backup_file_file (fs : FS) (now : Timestamp) (source target : FPath) : FS :=
  match fs.stat source, fs.stat target with
  | some _, some target_metadata =>
    match (if target_metadata.is_file then some fs else fileCreate fs target) with
    | none => fs
    | some fs1 =>
      match fileName source with
      | none => fs1
      | some source_filename =>
        let backup_path := target ++ [backupFilename source_filename now]
        match fsCopy fs1 source backup_path with
        | none => fs1
        | some fs2 => fs2
  | _, _ => fs

/-- Embeds `backup_directory_directory` from src/backup.rs: after
creating the timestamped directory it additionally attempts
`std::fs::copy` of the directory source onto that directory path. -/
def backup_directory_directory (fs : FS) (now : Timestamp) (source target : FPath) : FS :=
  match fs.stat source, fs.stat target with
  | some _, some target_metadata =>
    match (if target_metadata.is_dir then (fs, true) else createDirAll fs target) with
    | (fs1, false) => fs1
    | (fs1, true) =>
      match fileName source with
      | none => fs1
      | some source_filename =>
        let backup_path := target ++ [backupFilename source_filename now]
        match createDirAll fs1 backup_path with
        | (fs2, false) => fs2
        | (fs2, true) =>
          match fsCopy fs2 source backup_path with
          | none => fs2
          | some fs3 => fs3
  | _, _ => fs

/-- Embeds `backup_directory_file` from src/backup.rs, whose body is
line for line that of `backup_file_file`. -/
def backup_directory_file (fs : FS) (now : Timestamp) (source target : FPath) : FS :=
  match fs.stat source, fs.stat target with
  | some _, some target_metadata =>
    match (if target_metadata.is_file then some fs else fileCreate fs target) with
    | none => fs
    | some fs1 =>
      match fileName source with
      | none => fs1
      | some source_filename =>
        let backup_path := target ++ [backupFilename source_filename now]
        match fsCopy fs1 source backup_path with
        | none => fs1
        | some fs2 => fs2
  | _, _ => fs

inductive ProcState where
  | exited (code : Nat) (toStdout : Bool)
  | finished
deriving DecidableEq

/-- Default target `"./"`, the current working directory, i.e. the empty
component list. -/
def defaultTarget : FPath := []

/-- Embeds the public `backup` entry point from src/backup.rs: missing
source, the symlink guard, and classification errors all call
`writer::usage(1, false)`, which prints usage to stderr and exits the
process with code 1; otherwise the routine for the classified shape
runs. -/
def backup (fs : FS) (now : Timestamp) (source target : Option FPath) : FS × ProcState :=
  match source with
  | none => (fs, .exited 1 false)
  | some source =>
    let target := target.getD defaultTarget
    if fs.isSymlink source || fs.isSymlink target then
      (fs, .exited 1 false)
    else
      match determine_backup_type fs source target with
      | .error _ => (fs, .exited 1 false)
      | .ok .FileDirectory => (backup_file_directory fs now source target, .finished)
      | .ok .FileFile => (backup_file_file fs now source target, .finished)
      | .ok .DirectoryDirectory => (backup_directory_directory fs now source target, .finished)
      | .ok .DirectoryFile => (backup_directory_file fs now source target, .finished)

inductive MainAction where
  | usage (code : Nat) (toStdout : Bool)
  | callBackup (source target : Option String)
  | callRestore (source target : Option String)
deriving DecidableEq

/-- Models `str::trim`: drops whitespace from both ends of the character
list. -/
def trimChars (s : List Char) : List Char :=
  ((s.dropWhile Char.isWhitespace).reverse.dropWhile Char.isWhitespace).reverse

def strTrim (s : String) : String :=
  ⟨trimChars s.data⟩

/-- Embeds the mode dispatch of `main` from src/main.rs: an empty
command list and any mode other than the backup/restore spellings reach
`writer::usage(0, true)` (usage on stdout, exit code 0); the recognized
modes hand the remaining positional arguments to `backup` or
`restore`. -/
def mainDispatch (commands : List String) : MainAction :=
  match commands with
  | [] => .usage 0 true
  | action :: rest =>
    match strTrim action with
    | "b" | "backup" => .callBackup rest.head? (rest.drop 1).head?
    | "r" | "restore" => .callRestore rest.head? (rest.drop 1).head?
    | _ => .usage 0 true

/-! Concrete states used to evaluate the definitions on closed inputs. -/

def ts0 : Timestamp := ⟨2024, 1, 2, 3, 4, 5⟩

/-- The empty filesystem. -/
def fsO : FS := ⟨[], []⟩

/-- A regular file `/etc/hosts` and an existing directory `/bak`. -/
def fsA : FS := ⟨[(["etc", "hosts"], .file [104, 105]), (["bak"], .dir)], []⟩

def bpA : FPath := ["bak"] ++ [backupFilename "hosts" ts0]

/-- A regular file `a`, a directory `d` and a regular file `d/t`. -/
def fsB : FS := ⟨[(["a"], .file [7]), (["d"], .dir), (["d", "t"], .file [])], []⟩

/-- A single symlink at `ln`. -/
def fsC : FS := ⟨[], [["ln"]]⟩

/-- Directories `src` and `bak` and a regular file `tf`. -/
def fsD : FS := ⟨[(["src"], .dir), (["bak"], .dir), (["tf"], .file [2])], []⟩

def bpD : FPath := ["bak"] ++ [backupFilename "src" ts0]

/-- A state whose entry `..` makes `file_name` extraction fail. -/
def fsE : FS := ⟨[([".."], .file []), (["bak"], .dir), (["f"], .file [1])], []⟩

/-- One entry of every metadata kind. -/
def fsK : FS :=
  ⟨[(["f1"], .file [1]), (["f2"], .file [2]), (["d1"], .dir), (["d2"], .dir),
    (["o"], .other)], []⟩

/-! Basic lemmas about the filesystem map. -/

theorem lookupEntry_filter_ne (l : List (FPath × Entry)) (p q : FPath) (h : q ≠ p) :
    lookupEntry (l.filter (fun x => !decide (x.1 = p))) q = lookupEntry l q := by
  induction l with
  | nil => rfl
  | cons a rest ih =>
    by_cases ha : a.1 = p
    · have hpq : p ≠ q := fun hh => h hh.symm
      simp [List.filter_cons, ha, lookupEntry, hpq, ih]
    · simp [List.filter_cons, ha, lookupEntry, ih]

theorem FS.stat_set_self (fs : FS) (p : FPath) (e : Entry) :
    (fs.set p e).stat p = some e := by
  simp [FS.set, FS.stat, lookupEntry]

theorem FS.stat_set_ne (fs : FS) (p q : FPath) (e : Entry) (h : q ≠ p) :
    (fs.set p e).stat q = fs.stat q := by
  have hne : p ≠ q := fun hpq => h hpq.symm
  simp only [FS.stat, FS.set, lookupEntry]
  rw [if_neg hne]
  exact lookupEntry_filter_ne fs.entries p q h

theorem filter_ne_idem (l : List (FPath × Entry)) (p : FPath) :
    (l.filter (fun x => !decide (x.1 = p))).filter (fun x => !decide (x.1 = p)) =
      l.filter (fun x => !decide (x.1 = p)) := by
  induction l with
  | nil => rfl
  | cons a rest ih =>
    by_cases ha : a.1 = p
    · simp [List.filter_cons, ha, ih]
    · simp [List.filter_cons, ha, ih]

theorem FS.set_set (fs : FS) (p : FPath) (e f : Entry) :
    (fs.set p e).set p f = fs.set p f := by
  simp only [FS.set]
  congr 1
  rw [List.filter_cons]
  rw [if_neg (by simp)]
  rw [filter_ne_idem fs.entries p]

theorem FS.set_symlinks (fs : FS) (p : FPath) (e : Entry) :
    (fs.set p e).symlinks = fs.symlinks := rfl

theorem dropLast_append_single (l : List String) (a : String) :
    (l ++ [a]).dropLast = l := by
  simp

theorem append_single_ne_nil (l : List String) (a : String) : l ++ [a] ≠ [] := by
  simp

theorem ne_append_single (l : List String) (a : String) : l ≠ l ++ [a] := by
  intro h
  have := congrArg List.length h
  simp at this

/-! Lemmas about `createDirAll` and the copy routines. -/

theorem createDirAllAux_new_leaf (fs : FS) (rest : List String) :
    ∀ done : FPath, rest ≠ [] →
      (∀ k, k + 1 < rest.length → fs.stat (done ++ rest.take (k + 1)) = some .dir) →
      fs.stat (done ++ rest) = none →
      createDirAllAux fs done rest = (fs.set (done ++ rest) .dir, true) := by
  induction rest with
  | nil =>
    intro done h
    exact absurd rfl h
  | cons c rest ih =>
    intro done _ hdirs hnew
    cases rest with
    | nil =>
      simp [createDirAllAux, hnew]
    | cons d rest' =>
      have h0 : fs.stat (done ++ [c]) = some .dir := by
        have h := hdirs 0 (by simp)
        simpa using h
      simp only [createDirAllAux, h0]
      rw [List.append_cons done c (d :: rest')]
      apply ih (done ++ [c]) (by simp)
      · intro k hk
        have h := hdirs (k + 1) (by simp at hk ⊢; omega)
        rw [List.take_succ_cons, List.append_cons] at h
        exact h
      · rw [← List.append_cons]
        exact hnew

theorem createDirAll_new_leaf (fs : FS) (target : FPath) (name : String)
    (hdirs : ∀ k, k < target.length → fs.stat (target.take (k + 1)) = some .dir)
    (hnew : fs.stat (target ++ [name]) = none) :
    createDirAll fs (target ++ [name]) = (fs.set (target ++ [name]) .dir, true) := by
  have h := createDirAllAux_new_leaf fs (target ++ [name]) [] (by simp)
    (fun k hk => by
      have hk' : k < target.length := by simp at hk; omega
      have ht : (target ++ [name]).take (k + 1) = target.take (k + 1) :=
        List.take_append_of_le_length hk'
      simpa [ht] using hdirs k hk')
    (by simpa using hnew)
  simpa using h

theorem backup_file_directory_copies (fs : FS) (now : Timestamp) (source target : FPath)
    (c : List Nat) (n : String)
    (hsrc : fs.stat source = some (.file c))
    (htgt : fs.stat target = some .dir)
    (hname : fileName source = some n)
    (hdst : fs.stat (target ++ [backupFilename n now]) = none ∨
            ∃ d, fs.stat (target ++ [backupFilename n now]) = some (.file d)) :
    backup_file_directory fs now source target =
      fs.set (target ++ [backupFilename n now]) (.file c) := by
  have hbp : (target ++ [backupFilename n now]).dropLast = target :=
    dropLast_append_single _ _
  have hcopy : fsCopy fs source (target ++ [backupFilename n now]) =
      some (fs.set (target ++ [backupFilename n now]) (.file c)) := by
    rcases hdst with hdst | ⟨d, hdst⟩ <;>
      simp [fsCopy, hsrc, hbp, htgt, hdst]
  simp [backup_file_directory, hsrc, htgt, Entry.is_dir, hname, hcopy]

theorem backup_directory_directory_creates (fs : FS) (now : Timestamp)
    (source target : FPath) (n : String)
    (hsrc : fs.stat source = some .dir)
    (htgt : fs.stat target = some .dir)
    (hname : fileName source = some n)
    (hanc : ∀ k, k < target.length → fs.stat (target.take (k + 1)) = some .dir)
    (hnew : fs.stat (target ++ [backupFilename n now]) = none) :
    backup_directory_directory fs now source target =
      fs.set (target ++ [backupFilename n now]) .dir ∧
    fsCopy (fs.set (target ++ [backupFilename n now]) .dir) source
      (target ++ [backupFilename n now]) = none := by
  have hcda := createDirAll_new_leaf fs target (backupFilename n now) hanc hnew
  have hsne : source ≠ target ++ [backupFilename n now] := by
    intro h
    rw [h, hnew] at hsrc
    cases hsrc
  have hstat1 : (fs.set (target ++ [backupFilename n now]) .dir).stat source =
      some .dir := by
    rw [FS.stat_set_ne _ _ _ _ hsne]
    exact hsrc
  have hcopy : fsCopy (fs.set (target ++ [backupFilename n now]) .dir) source
      (target ++ [backupFilename n now]) = none := by
    simp [fsCopy, hstat1]
  refine ⟨?_, hcopy⟩
  simp [backup_directory_directory, hsrc, htgt, Entry.is_dir, hname, hcda, hcopy]

/-! Claims. -/

/-- C1: for every regular-file source and every existing directory
target, `backup_file_directory` creates exactly one new file under the
target directory, at the path obtained by joining
`<source-basename>.<timestamp>.backup` onto the target, whose byte
content equals the source file's content; every other path is
untouched, as is the symlink table. -/
theorem claim1_file_to_directory_backup (fs : FS) (now : Timestamp)
    (source target bp : FPath) (c : List Nat) (n : String)
    (hbp : bp = target ++ [backupFilename n now])
    (hsrc : fs.stat source = some (.file c))
    (htgt : fs.stat target = some .dir)
    (hname : fileName source = some n)
    (hfresh : fs.stat bp = none) :
    (backup_file_directory fs now source target).stat bp = some (.file c) ∧
    (∀ q, q ≠ bp → (backup_file_directory fs now source target).stat q = fs.stat q) ∧
    (backup_file_directory fs now source target).symlinks = fs.symlinks := by
  subst hbp
  rw [backup_file_directory_copies fs now source target c n hsrc htgt hname
    (Or.inl hfresh)]
  exact ⟨FS.stat_set_self _ _ _, fun q hq => FS.stat_set_ne _ _ _ _ hq, rfl⟩

/-- Witness for C1 on a concrete state: backing up the file
`etc/hosts` into the directory `bak` at `2024-01-02 03:04:05`. -/
theorem claim1_witness :
    (backup_file_directory fsA ts0 ["etc", "hosts"] ["bak"]).stat bpA =
      some (.file [104, 105]) ∧
    (∀ q, q ≠ bpA →
      (backup_file_directory fsA ts0 ["etc", "hosts"] ["bak"]).stat q = fsA.stat q) ∧
    (backup_file_directory fsA ts0 ["etc", "hosts"] ["bak"]).symlinks = fsA.symlinks :=
  claim1_file_to_directory_backup fsA ts0 ["etc", "hosts"] ["bak"] bpA [104, 105]
    "hosts" rfl (by decide) (by decide) (by decide) (by decide)

/-- C6: for every directory source and existing directory target (with
well-formed directory ancestors) whose computed backup path is fresh,
`backup_directory_directory` creates exactly the directory
`<source-basename>.<timestamp>.backup` under the target, and then
additionally attempts a single-file copy of the source onto that
freshly created directory path, an attempt that fails because the
source is not a regular file. -/
theorem claim6_directory_to_directory (fs : FS) (now : Timestamp)
    (source target bp : FPath) (n : String)
    (hbp : bp = target ++ [backupFilename n now])
    (hsrc : fs.stat source = some .dir)
    (htgt : fs.stat target = some .dir)
    (hname : fileName source = some n)
    (hanc : ∀ k, k < target.length → fs.stat (target.take (k + 1)) = some .dir)
    (hfresh : fs.stat bp = none) :
    backup_directory_directory fs now source target = fs.set bp .dir ∧
    (fs.set bp .dir).stat bp = some .dir ∧
    fsCopy (fs.set bp .dir) source bp = none := by
  subst hbp
  obtain ⟨h1, h2⟩ :=
    backup_directory_directory_creates fs now source target n hsrc htgt hname hanc hfresh
  exact ⟨h1, FS.stat_set_self _ _ _, h2⟩

/-- Witness for C6 on a concrete state: backing up the directory `src`
into the directory `bak`. -/
theorem claim6_witness :
    backup_directory_directory fsD ts0 ["src"] ["bak"] = fsD.set bpD .dir ∧
    (fsD.set bpD .dir).stat bpD = some .dir ∧
    fsCopy (fsD.set bpD .dir) ["src"] bpD = none :=
  claim6_directory_to_directory fsD ts0 ["src"] ["bak"] bpD "src" rfl (by decide)
    (by decide) (by decide) (by decide) (by decide)

/-- C8 counterexample: the claim quantifies over every source and
target, but for the regular-file source `a` and the regular-file target
`d/t`, invoking `backup` twice in the same second produces no artifact
at all: both invocations leave the filesystem unchanged, and no file
appears at the computed backup path (nor in the target's containing
directory). -/
theorem claim8_counterexample :
    (backup fsB ts0 (some ["a"]) (some ["d", "t"])).1 = fsB ∧
    (backup fsB ts0 (some ["a"]) (some ["d", "t"])).2 = .finished ∧
    (backup (backup fsB ts0 (some ["a"]) (some ["d", "t"])).1 ts0 (some ["a"])
      (some ["d", "t"])).1 = fsB ∧
    fsB.stat (["d", "t"] ++ [backupFilename "a" ts0]) = none ∧
    fsB.stat (["d"] ++ [backupFilename "a" ts0]) = none := by
  decide

/-- C8 (amended): for every regular-file source and existing directory
target whose computed backup path is fresh, invoking the backup twice
within the same wall-clock second produces a single artifact: the
second invocation overwrites the first at the same computed backup path
and leaves the state of the first invocation unchanged. -/
theorem claim8_amended_idempotence (fs : FS) (now : Timestamp)
    (source target bp : FPath) (c : List Nat) (n : String)
    (hbp : bp = target ++ [backupFilename n now])
    (hsrc : fs.stat source = some (.file c))
    (htgt : fs.stat target = some .dir)
    (hname : fileName source = some n)
    (hfresh : fs.stat bp = none) :
    backup_file_directory (backup_file_directory fs now source target) now source target =
      backup_file_directory fs now source target ∧
    (backup_file_directory fs now source target).stat bp = some (.file c) ∧
    (∀ q, q ≠ bp → (backup_file_directory fs now source target).stat q = fs.stat q) := by
  subst hbp
  have h1 := backup_file_directory_copies fs now source target c n hsrc htgt hname
    (Or.inl hfresh)
  have hsne : source ≠ target ++ [backupFilename n now] := by
    intro h
    rw [h, hfresh] at hsrc
    cases hsrc
  have htne : target ≠ target ++ [backupFilename n now] := ne_append_single _ _
  have h2 := backup_file_directory_copies
    (fs.set (target ++ [backupFilename n now]) (.file c)) now source target c n
    (by rw [FS.stat_set_ne _ _ _ _ hsne]; exact hsrc)
    (by rw [FS.stat_set_ne _ _ _ _ htne]; exact htgt)
    hname
    (Or.inr ⟨c, FS.stat_set_self _ _ _⟩)
  rw [h1, h2, FS.set_set]
  exact ⟨rfl, FS.stat_set_self _ _ _, fun q hq => FS.stat_set_ne _ _ _ _ hq⟩

/-- Witness for the amended C8 on a concrete state. -/
theorem claim8_witness :
    backup_file_directory (backup_file_directory fsA ts0 ["etc", "hosts"] ["bak"]) ts0
      ["etc", "hosts"] ["bak"] =
      backup_file_directory fsA ts0 ["etc", "hosts"] ["bak"] ∧
    (backup_file_directory fsA ts0 ["etc", "hosts"] ["bak"]).stat bpA =
      some (.file [104, 105]) ∧
    (∀ q, q ≠ bpA →
      (backup_file_directory fsA ts0 ["etc", "hosts"] ["bak"]).stat q = fsA.stat q) :=
  claim8_amended_idempotence fsA ts0 ["etc", "hosts"] ["bak"] bpA [104, 105] "hosts"
    rfl (by decide) (by decide) (by decide) (by decide)

/-- C2 counterexample: for the regular-file source `a` and the
regular-file target `d/t`, no artifact is placed under the target
file's containing directory `d`: the routine joins the backup name onto
the target file path itself, the copy fails, and the filesystem is
unchanged. -/
theorem claim2_counterexample :
    backup_file_file fsB ts0 ["a"] ["d", "t"] = fsB ∧
    (backup_file_file fsB ts0 ["a"] ["d", "t"]).stat
      (["d"] ++ [backupFilename "a" ts0]) = none := by
  decide

/-- C2 (amended): in every shape the backup artifact name is
`<original-filename>.<YYYY-MM-DD_HH-MM-SS>.backup` joined under the
target path itself.  For a directory target the artifact is created
there; for a file target the computed path lies beneath the target
file, so the copy fails and the routine leaves the filesystem
unchanged, placing nothing in the target file's containing
directory. -/
theorem claim2_amended_naming (fs : FS) (now : Timestamp) (source target : FPath) :
    (∀ c n bp, bp = target ++ [backupFilename n now] →
      fs.stat source = some (.file c) → fs.stat target = some .dir →
      fileName source = some n → fs.stat bp = none →
      backup_file_directory fs now source target = fs.set bp (.file c)) ∧
    (∀ c d n, fs.stat source = some (.file c) → fs.stat target = some (.file d) →
      fileName source = some n → target ≠ [] →
      backup_file_file fs now source target = fs ∧
      fsCopy fs source (target ++ [backupFilename n now]) = none) ∧
    (∀ d n, fs.stat source = some .dir → fs.stat target = some (.file d) →
      fileName source = some n →
      backup_directory_file fs now source target = fs ∧
      fsCopy fs source (target ++ [backupFilename n now]) = none) := by
  refine ⟨?_, ?_, ?_⟩
  · intro c n bp hbp hsrc htgt hname hfresh
    subst hbp
    exact backup_file_directory_copies fs now source target c n hsrc htgt hname
      (Or.inl hfresh)
  · intro c d n hsrc htgt hname htne
    have hcopy : fsCopy fs source (target ++ [backupFilename n now]) = none := by
      simp [fsCopy, hsrc, dropLast_append_single, htgt, htne]
    refine ⟨?_, hcopy⟩
    simp [backup_file_file, hsrc, htgt, Entry.is_file, hname, hcopy]
  · intro d n hsrc htgt hname
    have hcopy : fsCopy fs source (target ++ [backupFilename n now]) = none := by
      simp [fsCopy, hsrc]
    refine ⟨?_, hcopy⟩
    simp [backup_directory_file, hsrc, htgt, Entry.is_file, hname, hcopy]

/-- Witness for the amended C2, one concrete instance per shape. -/
theorem claim2_witness :
    backup_file_directory fsA ts0 ["etc", "hosts"] ["bak"] =
      fsA.set bpA (.file [104, 105]) ∧
    (backup_file_file fsB ts0 ["a"] ["d", "t"] = fsB ∧
      fsCopy fsB ["a"] (["d", "t"] ++ [backupFilename "a" ts0]) = none) ∧
    (backup_directory_file fsD ts0 ["src"] ["tf"] = fsD ∧
      fsCopy fsD ["src"] (["tf"] ++ [backupFilename "src" ts0]) = none) :=
  ⟨(claim2_amended_naming fsA ts0 ["etc", "hosts"] ["bak"]).1 [104, 105] "hosts" bpA
      rfl (by decide) (by decide) (by decide) (by decide),
   (claim2_amended_naming fsB ts0 ["a"] ["d", "t"]).2.1 [7] [] "a"
      (by decide) (by decide) (by decide) (by decide),
   (claim2_amended_naming fsD ts0 ["src"] ["tf"]).2.2 [2] "src"
      (by decide) (by decide) (by decide)⟩

/-- C3: whenever the source or the target path is a symlink, `backup`
leaves the filesystem untouched and terminates the process with exit
code 1 (usage text on stderr), whatever classification would have
said. -/
theorem claim3_symlink_rejection (fs : FS) (now : Timestamp) (source target : FPath)
    (h : fs.isSymlink source = true ∨ fs.isSymlink target = true) :
    backup fs now (some source) (some target) = (fs, .exited 1 false) := by
  rcases h with h | h <;> simp [backup, h]

/-- Witness for C3 at a concrete symlink source. -/
theorem claim3_witness :
    backup fsC ts0 (some ["ln"]) (some ["t"]) = (fsC, .exited 1 false) :=
  claim3_symlink_rejection fsC ts0 ["ln"] ["t"] (Or.inl (by decide))

/-- C4: the classifier fetches source metadata first, answering
`SourceNotFound` when it is unavailable (whatever the target's state),
and `TargetNotFound` when only the target's metadata is unavailable;
both are returned as `Except` values, and the `backup` entry point that
consumes them leaves the filesystem unchanged in both cases. -/
theorem claim4_classifier_errors (fs : FS) (now : Timestamp) (source target : FPath) :
    (fs.stat source = none →
      determine_backup_type fs source target =
        .error "Source file or directory does not exist") ∧
    (∀ e, fs.stat source = some e → fs.stat target = none →
      determine_backup_type fs source target =
        .error "Target file or directory does not exist") ∧
    (fs.isSymlink source = false → fs.isSymlink target = false →
      fs.stat source = none →
      backup fs now (some source) (some target) = (fs, .exited 1 false)) ∧
    (∀ e, fs.isSymlink source = false → fs.isSymlink target = false →
      fs.stat source = some e → fs.stat target = none →
      backup fs now (some source) (some target) = (fs, .exited 1 false)) := by
  refine ⟨?_, ?_, ?_, ?_⟩
  · intro h
    simp [determine_backup_type, h]
  · intro e hs ht
    simp [determine_backup_type, hs, ht]
  · intro h1 h2 h
    simp [backup, h1, h2, determine_backup_type, h]
  · intro e h1 h2 hs ht
    simp [backup, h1, h2, determine_backup_type, hs, ht]

/-- Witness for C4: a missing source and a missing target, through the
classifier and through the `backup` entry point. -/
theorem claim4_witness :
    determine_backup_type fsC ["a"] ["b"] =
      .error "Source file or directory does not exist" ∧
    determine_backup_type fsA ["etc", "hosts"] ["nope"] =
      .error "Target file or directory does not exist" ∧
    backup fsC ts0 (some ["a"]) (some ["b"]) = (fsC, .exited 1 false) ∧
    backup fsA ts0 (some ["etc", "hosts"]) (some ["nope"]) = (fsA, .exited 1 false) :=
  ⟨(claim4_classifier_errors fsC ts0 ["a"] ["b"]).1 (by decide),
   (claim4_classifier_errors fsA ts0 ["etc", "hosts"] ["nope"]).2.1
      (.file [104, 105]) (by decide) (by decide),
   (claim4_classifier_errors fsC ts0 ["a"] ["b"]).2.2.1 (by decide) (by decide)
      (by decide),
   (claim4_classifier_errors fsA ts0 ["etc", "hosts"] ["nope"]).2.2.2
      (.file [104, 105]) (by decide) (by decide) (by decide) (by decide)⟩

/-- C5: when both metadata fetches resolve, the classifier maps the
four file/directory combinations to the four shapes, and any
combination involving another metadata kind yields the `Unclassifiable`
error value, not a shape. -/
theorem claim5_classifier_shapes (fs : FS) (source target : FPath) :
    (∀ c, fs.stat source = some (.file c) → fs.stat target = some .dir →
      determine_backup_type fs source target = .ok .FileDirectory) ∧
    (∀ c d, fs.stat source = some (.file c) → fs.stat target = some (.file d) →
      determine_backup_type fs source target = .ok .FileFile) ∧
    (fs.stat source = some .dir → fs.stat target = some .dir →
      determine_backup_type fs source target = .ok .DirectoryDirectory) ∧
    (∀ d, fs.stat source = some .dir → fs.stat target = some (.file d) →
      determine_backup_type fs source target = .ok .DirectoryFile) ∧
    (∀ sm tm, fs.stat source = some sm → fs.stat target = some tm →
      sm = .other ∨ tm = .other →
      determine_backup_type fs source target = .error "Unknown error") := by
  refine ⟨?_, ?_, ?_, ?_, ?_⟩
  · intro c hs ht
    simp [determine_backup_type, hs, ht, Entry.is_file, Entry.is_dir]
  · intro c d hs ht
    simp [determine_backup_type, hs, ht, Entry.is_file, Entry.is_dir]
  · intro hs ht
    simp [determine_backup_type, hs, ht, Entry.is_file, Entry.is_dir]
  · intro d hs ht
    simp [determine_backup_type, hs, ht, Entry.is_file, Entry.is_dir]
  · intro sm tm hs ht h
    rcases h with h | h <;> subst h <;>
      simp [determine_backup_type, hs, ht, Entry.is_file, Entry.is_dir]

/-- Witness for C5: all four shapes and an unclassifiable combination
on one concrete state. -/
theorem claim5_witness :
    determine_backup_type fsK ["f1"] ["d1"] = .ok .FileDirectory ∧
    determine_backup_type fsK ["f1"] ["f2"] = .ok .FileFile ∧
    determine_backup_type fsK ["d1"] ["d2"] = .ok .DirectoryDirectory ∧
    determine_backup_type fsK ["d1"] ["f2"] = .ok .DirectoryFile ∧
    determine_backup_type fsK ["o"] ["f1"] = .error "Unknown error" :=
  ⟨(claim5_classifier_shapes fsK ["f1"] ["d1"]).1 [1] (by decide) (by decide),
   (claim5_classifier_shapes fsK ["f1"] ["f2"]).2.1 [1] [2] (by decide) (by decide),
   (claim5_classifier_shapes fsK ["d1"] ["d2"]).2.2.1 (by decide) (by decide),
   (claim5_classifier_shapes fsK ["d1"] ["f2"]).2.2.2.1 [2] (by decide) (by decide),
   (claim5_classifier_shapes fsK ["o"] ["f1"]).2.2.2.2 .other (.file [1])
      (by decide) (by decide) (Or.inl rfl)⟩

/-- C7: in the two cited copy routines (`backup_file_directory` and
`backup_directory_file`, the file-target one shared verbatim with
`backup_file_file`), every failing step — source metadata re-fetch,
target metadata re-fetch, container creation, filename extraction, and
byte copy — returns early with no propagated error (the routines
return only the filesystem state) and performs no further filesystem
mutation beyond what already happened before the failing step. -/
theorem claim7_silent_failures (fs : FS) (now : Timestamp) (source target : FPath) :
    (fs.stat source = none →
      backup_file_directory fs now source target = fs ∧
      backup_directory_file fs now source target = fs) ∧
    (∀ sm, fs.stat source = some sm → fs.stat target = none →
      backup_file_directory fs now source target = fs ∧
      backup_directory_file fs now source target = fs) ∧
    (∀ sm tm, fs.stat source = some sm → fs.stat target = some tm →
      tm.is_dir = false → (createDirAll fs target).2 = false →
      backup_file_directory fs now source target = (createDirAll fs target).1) ∧
    (∀ sm tm, fs.stat source = some sm → fs.stat target = some tm →
      tm.is_file = false → fileCreate fs target = none →
      backup_directory_file fs now source target = fs) ∧
    (∀ sm, fs.stat source = some sm → fs.stat target = some .dir →
      fileName source = none →
      backup_file_directory fs now source target = fs) ∧
    (∀ sm d, fs.stat source = some sm → fs.stat target = some (.file d) →
      fileName source = none →
      backup_directory_file fs now source target = fs) ∧
    (∀ sm n, fs.stat source = some sm → fs.stat target = some .dir →
      fileName source = some n →
      fsCopy fs source (target ++ [backupFilename n now]) = none →
      backup_file_directory fs now source target = fs) ∧
    (∀ sm d n, fs.stat source = some sm → fs.stat target = some (.file d) →
      fileName source = some n →
      fsCopy fs source (target ++ [backupFilename n now]) = none →
      backup_directory_file fs now source target = fs) := by
  refine ⟨?_, ?_, ?_, ?_, ?_, ?_, ?_, ?_⟩
  · intro h
    constructor <;> simp [backup_file_directory, backup_directory_file, h]
  · intro sm hs ht
    constructor <;> simp [backup_file_directory, backup_directory_file, hs, ht]
  · intro sm tm hs ht hdir hfail
    rcases hEq : createDirAll fs target with ⟨fs1, b⟩
    rw [hEq] at hfail
    simp only at hfail
    subst hfail
    simp [backup_file_directory, hs, ht, hdir, hEq]
  · intro sm tm hs ht hfile hfail
    simp [backup_directory_file, hs, ht, hfile, hfail]
  · intro sm hs ht hname
    simp [backup_file_directory, hs, ht, Entry.is_dir, hname]
  · intro sm d hs ht hname
    simp [backup_directory_file, hs, ht, Entry.is_file, hname]
  · intro sm n hs ht hname hcopy
    simp [backup_file_directory, hs, ht, Entry.is_dir, hname, hcopy]
  · intro sm d n hs ht hname hcopy
    simp [backup_directory_file, hs, ht, Entry.is_file, hname, hcopy]

/-- Witness for C7: one concrete instance per failing step and
routine. -/
theorem claim7_witness :
    (backup_file_directory fsO ts0 ["s"] ["t"] = fsO ∧
      backup_directory_file fsO ts0 ["s"] ["t"] = fsO) ∧
    (backup_file_directory fsA ts0 ["etc", "hosts"] ["nope"] = fsA ∧
      backup_directory_file fsA ts0 ["etc", "hosts"] ["nope"] = fsA) ∧
    backup_file_directory fsB ts0 ["a"] ["d", "t"] =
      (createDirAll fsB ["d", "t"]).1 ∧
    backup_directory_file fsA ts0 ["etc", "hosts"] ["bak"] = fsA ∧
    backup_file_directory fsE ts0 [".."] ["bak"] = fsE ∧
    backup_directory_file fsE ts0 [".."] ["f"] = fsE ∧
    backup_file_directory fsD ts0 ["src"] ["bak"] = fsD ∧
    backup_directory_file fsD ts0 ["src"] ["tf"] = fsD :=
  ⟨(claim7_silent_failures fsO ts0 ["s"] ["t"]).1 (by decide),
   (claim7_silent_failures fsA ts0 ["etc", "hosts"] ["nope"]).2.1
      (.file [104, 105]) (by decide) (by decide),
   (claim7_silent_failures fsB ts0 ["a"] ["d", "t"]).2.2.1
      (.file [7]) (.file []) (by decide) (by decide) (by decide) (by decide),
   (claim7_silent_failures fsA ts0 ["etc", "hosts"] ["bak"]).2.2.2.1
      (.file [104, 105]) .dir (by decide) (by decide) (by decide) (by decide),
   (claim7_silent_failures fsE ts0 [".."] ["bak"]).2.2.2.2.1
      (.file []) (by decide) (by decide) (by decide),
   (claim7_silent_failures fsE ts0 [".."] ["f"]).2.2.2.2.2.1
      (.file []) [1] (by decide) (by decide) (by decide),
   (claim7_silent_failures fsD ts0 ["src"] ["bak"]).2.2.2.2.2.2.1
      .dir "src" (by decide) (by decide) (by decide) (by decide),
   (claim7_silent_failures fsD ts0 ["src"] ["tf"]).2.2.2.2.2.2.2
      .dir [2] "src" (by decide) (by decide) (by decide) (by decide)⟩

/-- C9 counterexample: the unrecognized mode `frobnicate` prints usage
to standard output and exits 0 — exactly like a help request — not to
standard error with exit code 1 as the claim states. -/
theorem claim9_counterexample :
    mainDispatch ["frobnicate"] = .usage 0 true ∧
    mainDispatch ["frobnicate"] ≠ .usage 1 false := by
  decide

/-- C9 (amended): a missing mode, an explicit help request and an
unrecognized mode all print usage to standard output and exit 0; the
mode dispatch never reaches the stderr/exit-1 usage path. -/
theorem claim9_amended_usage :
    mainDispatch [] = .usage 0 true ∧
    (∀ action rest,
      strTrim action ∉ (["b", "backup", "r", "restore"] : List String) →
      mainDispatch (action :: rest) = .usage 0 true) := by
  refine ⟨rfl, ?_⟩
  intro action rest h
  simp only [mainDispatch]
  split <;> simp_all

/-- Witness for the amended C9: the explicit help mode. -/
theorem claim9_witness : mainDispatch ["help"] = .usage 0 true :=
  claim9_amended_usage.2 "help" [] (by decide)

/-- C10: `backup_directory_file` is extensionally equal to
`backup_file_file`: on every filesystem, instant and path pair the two
routines perform the identical sequence of steps, so the
directory-to-file shape never creates a tarball or any
directory-specific artifact. -/
theorem claim10_directory_file_equals_file_file (fs : FS) (now : Timestamp)
    (source target : FPath) :
    backup_directory_file fs now source target = backup_file_file fs now source target := rfl
